import Mathlib

/-!
Verification of the connection-type detector in
`src/include/http/detect_session.hpp`.

The C++ class `detect_session` owns one accepted TCP connection
(`beast::tcp_stream stream_`), a reference to an SSL context
(`ssl::context& ctx_`), a shared pointer to the document root
(`std::shared_ptr<std::string const> docRoot_`) and a peek buffer
(`beast::flat_buffer buffer_`).  We embed it shallowly:

* referents of the connection, the SSL context and the document-root
  string are modelled by `Nat` identities, so that "the same object,
  not a copy" becomes equality of identities;
* the peek buffer is the ordered list of bytes it holds;
* each member function is embedded as a pure function from the session
  state to the list of externally visible effects it performs, in
  program order.
-/

/-- A byte, as a natural number below 256 (the bound is irrelevant to the
claims and is not enforced). -/
abbrev Byte := Nat

/-- Contents of `beast::flat_buffer buffer_`: the bytes read ahead of
classification, in arrival order. -/
abbrev Buffer := List Byte

/-- State held by a `detect_session` object: the moved-in TCP stream, the
SSL-context reference, the document-root shared pointer and the peek
buffer.  References and pointers are modelled by the identity of their
referent. -/
structure detect_session where
  stream_ : Nat
  ctx_ : Nat
  docRoot_ : Nat
  buffer_ : Buffer
deriving DecidableEq, Repr

/-- The constructor `detect_session(tcp::socket&&, ssl::context&,
std::shared_ptr<std::string const> const&)`: moves the socket into
`stream_`, binds `ctx_` and `docRoot_`, and default-initializes
`buffer_` (a default-constructed `beast::flat_buffer` is empty). -/
def detect_session.construct (socket ctx doc_root : Nat) : detect_session :=
  { stream_ := socket, ctx_ := ctx, docRoot_ := doc_root, buffer_ := [] }

/-- Externally visible effects of `run`, `on_run` and the constructor. -/
inductive Effect where
  /-- `net::dispatch(stream_.get_executor(), bind_front_handler(&detect_session::on_run, shared_from_this()))`:
  submit `on_run` to the executor of the stream. -/
  | dispatchOnRun : Effect
  /-- `stream_.expires_after(std::chrono::seconds(n))`: arm the deadline
  timer of the stream for `n` seconds. -/
  | expiresAfter (seconds : Nat) : Effect
  /-- `beast::async_detect_ssl(stream_, buffer_, bind_front_handler(&detect_session::on_detect, shared_from_this()))`:
  begin the asynchronous non-consuming peek. -/
  | asyncDetectSsl : Effect
deriving DecidableEq, Repr

/-- Effects performed by the constructor body: none.  The initializer
list only moves the socket and stores the two configuration handles; no
I/O is issued and no timer is armed. -/
def detect_session.construct_effects : List Effect := []

/-- Effects performed synchronously inside `run()`: a single
`net::dispatch` of `on_run`.  `run` does not itself arm the timer, read,
classify, or start a handler. -/
def detect_session.run_effects : List Effect := [Effect.dispatchOnRun]

/-- Effects performed by `on_run()`, in program order: first
`stream_.expires_after(std::chrono::seconds(30))`, then
`beast::async_detect_ssl(stream_, buffer_, ... on_detect ...)`. -/
def detect_session.on_run_effects : List Effect :=
  [Effect.expiresAfter 30, Effect.asyncDetectSsl]

/-- Externally visible effects a completion handler can perform. -/
inductive CompletionEffect where
  /-- `fail(ec, "detect")`: invoke the failure-reporting hook with the
  error code and the reason tag. -/
  | failCall (ec : Nat) (what : String) : CompletionEffect
  /-- `std::make_shared<ssl_http_session>(std::move(stream_), ctx_, std::move(buffer_), docRoot_)->run()`:
  construct the secure handler with the moved stream, the SSL-context
  reference, the moved buffer and the document-root pointer, then start
  it. -/
  | startSecureHandler (stream ctx : Nat) (buffer : Buffer) (doc_root : Nat) : CompletionEffect
  /-- `std::make_shared<plain_http_session>(std::move(stream_), std::move(buffer_), docRoot_)->run()`:
  construct the plain handler with the moved stream, the moved buffer
  and the document-root pointer, then start it. -/
  | startPlainHandler (stream : Nat) (buffer : Buffer) (doc_root : Nat) : CompletionEffect
  /-- A write of bytes to the remote peer.  Present in the effect
  alphabet so that its absence from `on_detect` is expressible; no
  branch of `detect_session` ever produces it. -/
  | writeToPeer (bytes : Buffer) : CompletionEffect
deriving DecidableEq, Repr

/-- The completion handler `on_detect(beast::error_code ec, bool result)`,
embedded as the list of effects it performs.  The error code is modelled
as a `Nat`, zero meaning success (`if(ec)` in C++ tests for nonzero).
Mirrors the source: on error, `return fail(ec, "detect");`; otherwise if
`result` is true launch an SSL session, else launch a plain session. -/
def detect_session.on_detect_effects (s : detect_session) (ec : Nat) (result : Bool) :
    List CompletionEffect :=
  if ec ≠ 0 then
    [CompletionEffect.failCall ec "detect"]
  else if result then
    [CompletionEffect.startSecureHandler s.stream_ s.ctx_ s.buffer_ s.docRoot_]
  else
    [CompletionEffect.startPlainHandler s.stream_ s.buffer_ s.docRoot_]

/-- One read completion of the pending peek appends the newly arrived
chunk to `buffer_` (`beast::async_detect_ssl` accumulates into the
caller-supplied dynamic buffer without consuming from the stream);
nothing else in the session state changes. -/
def detect_session.accumulate (s : detect_session) (chunk : Buffer) : detect_session :=
  { s with buffer_ := s.buffer_ ++ chunk }

/-- Accumulation over a whole sequence of read completions. -/
def detect_session.accumulateAll (s : detect_session) (chunks : List Buffer) : detect_session :=
  chunks.foldl detect_session.accumulate s

/-- Modelled from the spec: the classification step of
`beast::async_detect_ssl` (Boost.Beast library code, not part of this
repository).  Per the spec, peeked bytes are classified Secure exactly
when they begin with a valid secure-protocol handshake preamble, whose
record layer starts with the TLS handshake content-type byte 22 (0x16);
any other first byte rules the secure protocol out; with no bytes yet,
no decision is possible. -/
def detect_ssl_decide (buffer : Buffer) : Option Bool :=
  match buffer with
  | [] => none
  | b :: _ => some (b == 22)

/-- Modelled from the spec: expiry of the deadline armed by
`expires_after` cancels the pending peek and completes it with a nonzero
error code (`beast::error::timeout`); library behavior of
`beast::tcp_stream`, not repository code. -/
def timeout_ec : Nat := 1

/-- Recognizes the secure-handler start effect. -/
def CompletionEffect.startsSecure : CompletionEffect → Bool
  | CompletionEffect.startSecureHandler _ _ _ _ => true
  | _ => false

/-- Recognizes the plain-handler start effect. -/
def CompletionEffect.startsPlain : CompletionEffect → Bool
  | CompletionEffect.startPlainHandler _ _ _ => true
  | _ => false

/-- Recognizes the failure-report effect. -/
def CompletionEffect.isFailCall : CompletionEffect → Bool
  | CompletionEffect.failCall _ _ => true
  | _ => false

/-- Recognizes a write to the peer. -/
def CompletionEffect.isWrite : CompletionEffect → Bool
  | CompletionEffect.writeToPeer _ => true
  | _ => false

/-- Number of secure-handler starts in an effect list. -/
def countSecure (es : List CompletionEffect) : Nat :=
  (es.filter CompletionEffect.startsSecure).length

/-- Number of plain-handler starts in an effect list. -/
def countPlain (es : List CompletionEffect) : Nat :=
  (es.filter CompletionEffect.startsPlain).length

/-- Number of failure reports in an effect list. -/
def countFail (es : List CompletionEffect) : Nat :=
  (es.filter CompletionEffect.isFailCall).length

/-- The non-buffer argument identities an effect hands to a downstream
collaborator: the stream, the SSL-context reference and the
document-root pointer, as they appear at the call site. -/
def CompletionEffect.argValues : CompletionEffect → List Nat
  | CompletionEffect.failCall _ _ => []
  | CompletionEffect.startSecureHandler st c _ d => [st, c, d]
  | CompletionEffect.startPlainHandler st _ d => [st, d]
  | CompletionEffect.writeToPeer _ => []

/-- The buffer an effect delivers to a handler, when it starts one. -/
def CompletionEffect.deliveredBuffer : CompletionEffect → Option Buffer
  | CompletionEffect.startSecureHandler _ _ b _ => some b
  | CompletionEffect.startPlainHandler _ b _ => some b
  | _ => none

/-- Where the connection ends up once the completion handler returns.
When `on_detect` moves `stream_` into a handler, that handler owns the
connection.  Otherwise (the failure branch) no one was given the stream;
the completed async operation held the last `shared_ptr` to the
session, so the session is destroyed, destroying `stream_`, and the
`beast::tcp_stream` destructor closes the socket. -/
inductive ConnFate where
  | movedToSecureHandler : ConnFate
  | movedToPlainHandler : ConnFate
  | closedByTeardown : ConnFate
deriving DecidableEq, Repr

/-- Connection fate determined by the effects of the completion
handler. -/
def connFate (es : List CompletionEffect) : ConnFate :=
  if es.any CompletionEffect.startsSecure then ConnFate.movedToSecureHandler
  else if es.any CompletionEffect.startsPlain then ConnFate.movedToPlainHandler
  else ConnFate.closedByTeardown

/-- Lifecycle phases of a detector, from the specification state
machine: `Idle → Detecting → {DispatchedSecure | DispatchedPlain | Failed}`. -/
inductive Phase where
  | idle : Phase
  | detecting : Phase
  | dispatchedSecure : Phase
  | dispatchedPlain : Phase
  | failed : Phase
deriving DecidableEq, Repr

/-- Lifecycle events: the single `run()` call, and the three possible
completions of `on_detect`. -/
inductive Event where
  | evRun : Event
  | evCompleteSecure : Event
  | evCompletePlain : Event
  | evCompleteFail : Event
deriving DecidableEq, Repr

/-- The lifecycle transition function.  `run()` is only meaningful from
the initial phase; the completion handler fires only while detecting;
terminal phases admit no further transitions (the session object has
been consumed). -/
def stepPhase : Phase → Event → Option Phase
  | Phase.idle, Event.evRun => some Phase.detecting
  | Phase.detecting, Event.evCompleteSecure => some Phase.dispatchedSecure
  | Phase.detecting, Event.evCompletePlain => some Phase.dispatchedPlain
  | Phase.detecting, Event.evCompleteFail => some Phase.failed
  | _, _ => none

/-- Run a sequence of lifecycle events from a phase; `none` when an
event is impossible in its phase. -/
def runTrace : Phase → List Event → Option Phase
  | p, [] => some p
  | p, e :: es =>
    match stepPhase p e with
    | none => none
    | some q => runTrace q es

/-- Terminal phases of the lifecycle. -/
def Phase.isTerminal : Phase → Bool
  | Phase.dispatchedSecure => true
  | Phase.dispatchedPlain => true
  | Phase.failed => true
  | _ => false

/-- An event that is an execution of the completion handler. -/
def Event.isCompletion : Event → Bool
  | Event.evRun => false
  | _ => true

/-- Number of completion-handler executions in a trace. -/
def completionCount (es : List Event) : Nat :=
  (es.filter Event.isCompletion).length

/-- Completion-handler executions still possible from a phase. -/
def remCompletions : Phase → Nat
  | Phase.idle => 1
  | Phase.detecting => 1
  | _ => 0

lemma accumulateAll_eq (s : detect_session) (chunks : List Buffer) :
    s.accumulateAll chunks = { s with buffer_ := s.buffer_ ++ chunks.flatten } := by
  induction chunks generalizing s with
  | nil => simp [detect_session.accumulateAll]
  | cons c cs ih =>
    simp only [detect_session.accumulateAll, List.foldl_cons] at *
    rw [ih (s.accumulate c)]
    simp [detect_session.accumulate, List.append_assoc]

lemma construct_accumulateAll (socket ctx doc_root : Nat) (chunks : List Buffer) :
    (detect_session.construct socket ctx doc_root).accumulateAll chunks =
      { stream_ := socket, ctx_ := ctx, docRoot_ := doc_root, buffer_ := chunks.flatten } := by
  rw [accumulateAll_eq]
  simp [detect_session.construct]

lemma completionCount_cons (e : Event) (es : List Event) :
    completionCount (e :: es) =
      (if e.isCompletion then 1 else 0) + completionCount es := by
  unfold completionCount
  cases h : e.isCompletion <;> simp [List.filter_cons, h, Nat.add_comm]

lemma runTrace_completions (es : List Event) : ∀ p q : Phase,
    runTrace p es = some q →
    completionCount es + remCompletions q = remCompletions p := by
  induction es with
  | nil =>
    intro p q h
    simp [runTrace] at h
    subst h
    simp [completionCount]
  | cons e es ih =>
    intro p q h
    rw [runTrace] at h
    cases hp : stepPhase p e with
    | none => rw [hp] at h; cases h
    | some r =>
      rw [hp] at h
      have hrec := ih r q h
      rw [completionCount_cons]
      cases p <;> cases e <;> simp [stepPhase] at hp <;>
        subst hp <;>
        simp [Event.isCompletion, remCompletions] at hrec ⊢ <;> omega

/-- C1: for every execution of the completion handler, exactly one of
the three outcomes (secure handler started, plain handler started,
failure reported) occurs, never zero and never more than one; and along
any valid lifecycle trace from construction, the completion handler
executes at most once, and exactly once whenever a terminal phase is
reached. -/
theorem c1_exactly_one_outcome :
    (∀ (s : detect_session) (ec : Nat) (result : Bool),
      countSecure (s.on_detect_effects ec result) +
        countPlain (s.on_detect_effects ec result) +
        countFail (s.on_detect_effects ec result) = 1) ∧
    (∀ (tr : List Event) (q : Phase), runTrace Phase.idle tr = some q →
      completionCount tr ≤ 1 ∧ (q.isTerminal = true → completionCount tr = 1)) := by
  constructor
  · intro s ec result
    unfold detect_session.on_detect_effects
    split
    · simp [countSecure, countPlain, countFail, List.filter,
        CompletionEffect.startsSecure, CompletionEffect.startsPlain,
        CompletionEffect.isFailCall]
    · split <;>
        simp [countSecure, countPlain, countFail, List.filter,
          CompletionEffect.startsSecure, CompletionEffect.startsPlain,
          CompletionEffect.isFailCall]
  · intro tr q h
    have hinv := runTrace_completions tr Phase.idle q h
    constructor
    · cases q <;> simp [remCompletions] at hinv <;> omega
    · intro hterm
      cases q <;> simp [Phase.isTerminal] at hterm <;>
        simp [remCompletions] at hinv <;> omega

/-- Witness for C1: a concrete completion produces exactly one outcome,
and the concrete trace run-then-complete-secure has exactly one
completion. -/
theorem c1_exactly_one_outcome_witness :
    countSecure ((detect_session.construct 1 2 3).on_detect_effects 0 true) +
      countPlain ((detect_session.construct 1 2 3).on_detect_effects 0 true) +
      countFail ((detect_session.construct 1 2 3).on_detect_effects 0 true) = 1 ∧
    completionCount [Event.evRun, Event.evCompleteSecure] = 1 :=
  ⟨c1_exactly_one_outcome.1 (detect_session.construct 1 2 3) 0 true,
   (c1_exactly_one_outcome.2 [Event.evRun, Event.evCompleteSecure]
      Phase.dispatchedSecure rfl).2 rfl⟩

/-- C2: when the accumulated bytes begin with the secure-protocol
handshake preamble, classification returns Secure, and completion
without error starts the secure handler with the moved stream, the
SSL-context reference, exactly the accumulated bytes, and the
document-root pointer. -/
theorem c2_secure_dispatch (socket ctx doc_root : Nat) (chunks : List Buffer)
    (rest : Buffer) (hbytes : chunks.flatten = 22 :: rest) :
    detect_ssl_decide chunks.flatten = some true ∧
    ((detect_session.construct socket ctx doc_root).accumulateAll chunks).on_detect_effects
        0 true =
      [CompletionEffect.startSecureHandler socket ctx chunks.flatten doc_root] := by
  constructor
  · rw [hbytes]
    simp [detect_ssl_decide]
  · rw [construct_accumulateAll]
    simp [detect_session.on_detect_effects]

/-- Witness for C2: a two-chunk arrival whose bytes begin with byte 22
is classified Secure and dispatched with the full accumulated buffer. -/
theorem c2_secure_dispatch_witness :
    detect_ssl_decide ([[22, 3, 1], [5]] : List Buffer).flatten = some true ∧
    ((detect_session.construct 1 2 3).accumulateAll [[22, 3, 1], [5]]).on_detect_effects
        0 true =
      [CompletionEffect.startSecureHandler 1 2 [22, 3, 1, 5] 3] := by
  exact c2_secure_dispatch 1 2 3 [[22, 3, 1], [5]] [3, 1, 5] (by decide)

/-- C4: when the completion handler receives a nonzero error code, the
only effect is the failure hook invoked with that code and the reason
tag; no handler is started, nothing is written to the peer, and the
connection is closed by detector teardown. -/
theorem c4_error_fails (s : detect_session) (ec : Nat) (result : Bool) (hec : ec ≠ 0) :
    s.on_detect_effects ec result = [CompletionEffect.failCall ec "detect"] ∧
    countSecure (s.on_detect_effects ec result) = 0 ∧
    countPlain (s.on_detect_effects ec result) = 0 ∧
    connFate (s.on_detect_effects ec result) = ConnFate.closedByTeardown ∧
    (s.on_detect_effects ec result).filter CompletionEffect.isWrite = [] := by
  have h : s.on_detect_effects ec result = [CompletionEffect.failCall ec "detect"] := by
    simp [detect_session.on_detect_effects, hec]
  rw [h]
  refine ⟨rfl, ?_, ?_, ?_, ?_⟩ <;>
    simp [countSecure, countPlain, connFate, List.filter,
      CompletionEffect.startsSecure, CompletionEffect.startsPlain,
      CompletionEffect.isWrite]

/-- Witness for C4: error code 5 leads to the failure report alone. -/
theorem c4_error_fails_witness :
    (detect_session.construct 1 2 3).on_detect_effects 5 true =
      [CompletionEffect.failCall 5 "detect"] ∧
    countSecure ((detect_session.construct 1 2 3).on_detect_effects 5 true) = 0 ∧
    countPlain ((detect_session.construct 1 2 3).on_detect_effects 5 true) = 0 ∧
    connFate ((detect_session.construct 1 2 3).on_detect_effects 5 true) =
      ConnFate.closedByTeardown ∧
    ((detect_session.construct 1 2 3).on_detect_effects 5 true).filter
      CompletionEffect.isWrite = [] := by
  exact c4_error_fails (detect_session.construct 1 2 3) 5 true (by decide)

/-- C5: the peek buffer starts empty at construction, accumulation over
any sequence of read completions makes it exactly the concatenation of
the arrived chunks in order, and on either successful classification the
buffer delivered to the started handler is exactly that concatenation. -/
theorem c5_buffer_fidelity (socket ctx doc_root : Nat) (chunks : List Buffer)
    (result : Bool) :
    (detect_session.construct socket ctx doc_root).buffer_ = [] ∧
    ((detect_session.construct socket ctx doc_root).accumulateAll chunks).buffer_ =
      chunks.flatten ∧
    (((detect_session.construct socket ctx doc_root).accumulateAll chunks).on_detect_effects
        0 result).findSome? CompletionEffect.deliveredBuffer = some chunks.flatten := by
  refine ⟨rfl, ?_, ?_⟩
  · rw [construct_accumulateAll]
  · rw [construct_accumulateAll]
    cases result <;>
      simp [detect_session.on_detect_effects, List.findSome?,
        CompletionEffect.deliveredBuffer]

/-- C3 counterexample: on a plain classification the plain handler is
started with the stream (identity 1), the buffer and the document-root
pointer (identity 9), but the SSL-context reference (identity 7) is not
among the argument identities handed over, contradicting the claim that
the Shared Configuration passed to the plain handler comprises both the
cryptographic context and the document-root reference. -/
theorem c3_ctx_not_passed_to_plain :
    (detect_session.construct 1 7 9).on_detect_effects 0 false =
      [CompletionEffect.startPlainHandler 1 [] 9] ∧
    (CompletionEffect.startPlainHandler 1 ([] : Buffer) 9).argValues.contains 7 = false := by
  exact ⟨rfl, rfl⟩

/-- C3 amended: when the accumulated bytes do not begin with the
secure-protocol handshake preamble, classification returns Plain, and
completion without error starts the plain handler exactly once with the
moved stream, exactly the accumulated bytes, and the document-root
pointer; the cryptographic context is not among its arguments. -/
theorem c3_plain_dispatch (socket ctx doc_root : Nat) (chunks : List Buffer)
    (b : Byte) (rest : Buffer) (hbytes : chunks.flatten = b :: rest) (hb : b ≠ 22) :
    detect_ssl_decide chunks.flatten = some false ∧
    ((detect_session.construct socket ctx doc_root).accumulateAll chunks).on_detect_effects
        0 false =
      [CompletionEffect.startPlainHandler socket chunks.flatten doc_root] := by
  constructor
  · rw [hbytes]
    simp [detect_ssl_decide]
    exact hb
  · rw [construct_accumulateAll]
    simp [detect_session.on_detect_effects]

/-- Witness for the amended C3: the bytes of "GET" (71, 69, 84) are
classified Plain and dispatched to the plain handler with the full
accumulated buffer. -/
theorem c3_plain_dispatch_witness :
    detect_ssl_decide ([[71, 69, 84]] : List Buffer).flatten = some false ∧
    ((detect_session.construct 4 5 6).accumulateAll [[71, 69, 84]]).on_detect_effects
        0 false =
      [CompletionEffect.startPlainHandler 4 [71, 69, 84] 6] := by
  exact c3_plain_dispatch 4 5 6 [[71, 69, 84]] 71 [69, 84] (by decide) (by decide)

/-- C6: the first step after run arms the deadline for exactly 30
seconds and only then issues the peek; deadline expiry completes the
peek with a nonzero error code, which the completion handler turns into
the failure report alone; and no lifecycle transition leaves a terminal
phase, so an expired detection is never retried. -/
theorem c6_deadline (s : detect_session) (result : Bool) :
    detect_session.on_run_effects = [Effect.expiresAfter 30, Effect.asyncDetectSsl] ∧
    timeout_ec ≠ 0 ∧
    s.on_detect_effects timeout_ec result = [CompletionEffect.failCall timeout_ec "detect"] ∧
    (∀ p : Phase, p.isTerminal = true → ∀ e : Event, stepPhase p e = none) := by
  refine ⟨rfl, by decide, ?_, ?_⟩
  · simp [detect_session.on_detect_effects, timeout_ec]
  · intro p hp e
    cases p <;> simp [Phase.isTerminal] at hp <;> cases e <;> rfl

/-- Witness for C6: a concrete timed-out detection reports failure, and
the failed phase admits no further event. -/
theorem c6_deadline_witness :
    (detect_session.construct 1 2 3).on_detect_effects timeout_ec false =
      [CompletionEffect.failCall timeout_ec "detect"] ∧
    stepPhase Phase.failed Event.evRun = none :=
  ⟨(c6_deadline (detect_session.construct 1 2 3) false).2.2.1,
   (c6_deadline (detect_session.construct 1 2 3) false).2.2.2 Phase.failed rfl Event.evRun⟩

/-- C7: run performs exactly one synchronous effect, the dispatch of
on_run to the executor of the stream; it arms no timer, issues no read
and starts no handler itself, and invoking it once from the initial
phase is a valid transition into the detecting phase. -/
theorem c7_run_schedules_only :
    detect_session.run_effects = [Effect.dispatchOnRun] ∧
    detect_session.run_effects.length = 1 ∧
    (∀ n : Nat, detect_session.run_effects.contains (Effect.expiresAfter n) = false) ∧
    detect_session.run_effects.contains Effect.asyncDetectSsl = false ∧
    stepPhase Phase.idle Event.evRun = some Phase.detecting := by
  refine ⟨rfl, rfl, ?_, rfl, rfl⟩
  intro n
  rfl

/-- C9 counterexample: on a plain classification the SSL-context
reference (identity 7) is not passed to the selected handler at all,
contradicting the claim that the Shared Configuration, comprising both
the cryptographic context and the document-root reference, is passed
through to the selected handler. -/
theorem c9_ctx_absent_from_plain_dispatch :
    (detect_session.construct 10 7 9).on_detect_effects 0 false =
      [CompletionEffect.startPlainHandler 10 [] 9] ∧
    (CompletionEffect.startPlainHandler 10 ([] : Buffer) 9).argValues.contains 7 = false ∧
    ((detect_session.construct 10 7 9).on_detect_effects 0 false).all
      (fun e => (e.argValues.contains 7 = false : Bool)) = true := by
  exact ⟨rfl, rfl, rfl⟩

/-- C9 amended: no detector operation mutates the configuration handles:
construction stores exactly the given SSL-context reference and
document-root pointer, accumulation preserves them, the secure handler
receives both identically, and the plain handler receives the
document-root pointer identically (the cryptographic context is not
passed to it). -/
theorem c9_config_preserved (socket ctx doc_root : Nat) (chunks : List Buffer) :
    (detect_session.construct socket ctx doc_root).ctx_ = ctx ∧
    (detect_session.construct socket ctx doc_root).docRoot_ = doc_root ∧
    ((detect_session.construct socket ctx doc_root).accumulateAll chunks).ctx_ = ctx ∧
    ((detect_session.construct socket ctx doc_root).accumulateAll chunks).docRoot_ =
      doc_root ∧
    ((detect_session.construct socket ctx doc_root).accumulateAll chunks).on_detect_effects
        0 true =
      [CompletionEffect.startSecureHandler socket ctx chunks.flatten doc_root] ∧
    ((detect_session.construct socket ctx doc_root).accumulateAll chunks).on_detect_effects
        0 false =
      [CompletionEffect.startPlainHandler socket chunks.flatten doc_root] := by
  rw [construct_accumulateAll]
  refine ⟨rfl, rfl, rfl, rfl, ?_, ?_⟩ <;> simp [detect_session.on_detect_effects]

/-- C10: the constructor performs no effects at all, in particular no
timer arming and no I/O; run itself arms no timer; the deadline timer is
armed in on_run; and from the initial phase no completion event is
possible, so nothing runs before run is invoked. -/
theorem c10_construction_inert :
    detect_session.construct_effects = ([] : List Effect) ∧
    (∀ n : Nat, detect_session.construct_effects.contains (Effect.expiresAfter n) = false) ∧
    (∀ n : Nat, detect_session.run_effects.contains (Effect.expiresAfter n) = false) ∧
    detect_session.on_run_effects.contains (Effect.expiresAfter 30) = true ∧
    stepPhase Phase.idle Event.evCompleteSecure = none ∧
    stepPhase Phase.idle Event.evCompletePlain = none ∧
    stepPhase Phase.idle Event.evCompleteFail = none := by
  refine ⟨rfl, ?_, ?_, rfl, rfl, rfl, rfl⟩ <;> intro n <;> rfl
